import Mathlib

/-!
# Verification of the TradeMachine trade valuation engine

Shallow embedding of the numeric core of `appwithimages.py`: the score
calculator (`calculate_score`), the category averager
(`calculate_team_averages`), and the trade evaluator (`evaluate_trade`)
together with the validation flow of `main`.

Modelling conventions:
* Python floats are modelled as rationals (`ℚ`); all arithmetic is exact.
* pandas data frames are modelled as lists of records, one structure per row.
* The string field `FGA` / `FTA` of shape `"made/attempted"` is modelled as an
  already-parsed optional pair; `none` models an unparseable string, on which
  `parse_attempts` falls back to `(0, 0)` exactly as the `except` branch does.
* `datetime.now()` is modelled by passing the number of days elapsed since the
  base date `2024-10-21` as an explicit integer parameter `days`.
* `pandas.sort_values(by='R#')` is modelled by sorting with a comparison on the
  rank field; ranks are assumed numeric (the data-model invariant of the
  source's tables).
* `round(x, 2)` is modelled as rounding `100 * x` to the nearest integer
  (half away from zero upward); the instances evaluated below avoid exact
  half-way ties, where binary-float `round` could differ.
* UI output (`st.markdown`, images, share message) is not part of the model;
  `st.warning` / `st.error` followed by an early return is modelled by the
  `EvalResult.warning` constructor, and a Python exception (e.g. `.iloc[0]` on
  an empty selection) by `EvalResult.exception`.
-/

namespace TradeMachine

/-- One row of the merged scores table (`data` in the source): player name,
normalized name (`Player_Name_Normalized`), fantasy team (`Takım`), the
numeric `Regular` and `Projection` values, and the optional `Last14` /
`Last30` values (`none` models the string sentinel `N/A`). -/
structure ScoreRow where
  player_name : String
  normalized : String
  team : String
  regular : ℚ
  projection : ℚ
  last14 : Option ℚ
  last30 : Option ℚ
  deriving DecidableEq, Repr

/-- `calculate_week` (source line 113): `week = max(0, delta.days // 7 + 1)`
where `delta.days` is the number of whole days from the base date 2024-10-21
to "now"; Python `//` is floor division, hence `Int.fdiv`. -/
def calculate_week (days : ℤ) : ℕ :=
  (max 0 (days.fdiv 7 + 1)).toNat

/-- `data[data['Player_Name'] == player].iloc[0]`: the first row of the table
whose `Player_Name` equals `player`; `none` models the `IndexError` raised on
an empty selection. -/
def lookupPlayer (data : List ScoreRow) (player : String) : Option ScoreRow :=
  data.find? (fun r => r.player_name == player)

/-- `calculate_score` (source line 123): looks up the player's row and returns
`max(2, ((20 - week) * projection) / 20 + (week * regular) / 20)`. -/
def calculate_score (player : String) (week : ℕ) (data : List ScoreRow) : Option ℚ :=
  (lookupPlayer data player).map (fun pd =>
    max 2 ((((20 : ℚ) - week) * pd.projection) / 20 + ((week : ℚ) * pd.regular) / 20))

/-- Python `round(x, 2)`: round to two decimal places. -/
def round2 (x : ℚ) : ℚ :=
  (round (100 * x) : ℤ) / 100

/-- `compute_ratio` (source line 452): `round(min(a / b, b / a), 2)` when both
totals are positive, `0.00` otherwise. -/
def compute_ratio (a b : ℚ) : ℚ :=
  if 0 < a ∧ 0 < b then round2 (min (a / b) (b / a)) else 0

/-- One row of a statistics table (regular season, rest-of-season, last-14 or
last-30): normalized player name, numeric rank `R#`, the shooting split pairs
parsed from the `FGA` / `FTA` strings (`none` = unparseable), and the seven
counting categories (`tov` is the `TO` column). -/
structure StatRow where
  normalized : String
  rank : ℚ
  fga : Option (ℚ × ℚ)
  fta : Option (ℚ × ℚ)
  threePM : ℚ
  pts : ℚ
  treb : ℚ
  ast : ℚ
  stl : ℚ
  blk : ℚ
  tov : ℚ
  deriving DecidableEq, Repr

/-- `parse_attempts` (source line 214): returns the (made, attempted) pair, or
`(0.0, 0.0)` when the string does not parse (the `except` branch). -/
def parse_attempts (s : Option (ℚ × ℚ)) : ℚ × ℚ :=
  s.getD (0, 0)

/-- Comparison used by `sort_values(by='R#')`: ascending numeric rank. -/
def rankLE (r s : StatRow) : Prop :=
  r.rank ≤ s.rank

instance : DecidableRel rankLE := fun r s =>
  inferInstanceAs (Decidable (r.rank ≤ s.rank))

instance : IsTotal StatRow rankLE :=
  ⟨fun a b => le_total a.rank b.rank⟩

instance : IsTrans StatRow rankLE :=
  ⟨fun _ _ _ h h2 => le_trans h h2⟩

/-- `df[df['Player_Name_Normalized'].isin(player_list_normalized)]`: the rows
of the table that belong to the roster. -/
def rosterRows (df : List StatRow) (roster : List String) : List StatRow :=
  df.filter (fun r => roster.contains r.normalized)

/-- `team_df.sort_values(by='R#').head(num_top_players)`: the top-N rows of
the roster by ascending rank. -/
def topPlayers (df : List StatRow) (roster : List String) (n : ℕ) : List StatRow :=
  ((rosterRows df roster).insertionSort rankLE).take n

/-- The dictionary returned by `calculate_team_averages`. -/
structure TeamAverages where
  fg_pct : ℚ
  ft_pct : ℚ
  threePM : ℚ
  pts : ℚ
  treb : ℚ
  ast : ℚ
  stl : ℚ
  blk : ℚ
  tov : ℚ
  deriving DecidableEq, Repr

/-- `total / num_players if num_players > 0 else 0` for one counting
category. -/
def meanOf (sel : List StatRow) (f : StatRow → ℚ) : ℚ :=
  if 0 < sel.length then (sel.map f).sum / (sel.length : ℚ) else 0

/-- `calculate_team_averages` (source line 226): filter to the roster, sort by
rank, take the top N, aggregate shooting by summed makes over summed attempts
(0 when the summed attempts are 0), and average the counting categories. -/
def calculate_team_averages (df : List StatRow) (roster : List String)
    (n : ℕ) : TeamAverages :=
  let team_df := topPlayers df roster n
  let total_fg_made := (team_df.map (fun r => (parse_attempts r.fga).1)).sum
  let total_fg_attempts := (team_df.map (fun r => (parse_attempts r.fga).2)).sum
  let total_ft_made := (team_df.map (fun r => (parse_attempts r.fta).1)).sum
  let total_ft_attempts := (team_df.map (fun r => (parse_attempts r.fta).2)).sum
  { fg_pct := if 0 < total_fg_attempts then total_fg_made / total_fg_attempts else 0
    ft_pct := if 0 < total_ft_attempts then total_ft_made / total_ft_attempts else 0
    threePM := meanOf team_df (fun r => r.threePM)
    pts := meanOf team_df (fun r => r.pts)
    treb := meanOf team_df (fun r => r.treb)
    ast := meanOf team_df (fun r => r.ast)
    stl := meanOf team_df (fun r => r.stl)
    blk := meanOf team_df (fun r => r.blk)
    tov := meanOf team_df (fun r => r.tov) }

/-- One entry of `team1_details` / `team2_details` in `evaluate_trade`:
`none` in `regular` / `projection` models the `'-'` sentinel of an empty
slot, `none` in `last14` / `last30` models `'N/A'` or `'-'`. -/
structure Detail where
  player : String
  regular : Option ℚ
  projection : Option ℚ
  last14 : Option ℚ
  last30 : Option ℚ
  score : ℚ
  injury_adjustment : ℤ
  deriving DecidableEq, Repr

/-- The per-player body of the evaluation loops (source lines 291-314 and
322-345): blended score, plus injury adjustment, re-floored at 2.00, together
with the row data recorded in the details entry. -/
def evalPlayer (data : List ScoreRow) (week : ℕ) (player : String)
    (adj : ℤ) : Option Detail :=
  match calculate_score player week data, lookupPlayer data player with
  | some s, some pd =>
      some { player := player
             regular := some pd.regular
             projection := some pd.projection
             last14 := pd.last14
             last30 := pd.last30
             score := max 2 (s + (adj : ℚ))
             injury_adjustment := adj }
  | _, _ => none

/-- One side's evaluation loop: each player is paired with the injury
adjustment at the same index; a missing row or a missing adjustment models
the exception Python would raise. -/
def evalSide (data : List ScoreRow) (week : ℕ) :
    List String → List ℤ → Option (List Detail)
  | [], _ => some []
  | _ :: _, [] => none
  | p :: ps, a :: rest => do
      let d ← evalPlayer data week p a
      let ds ← evalSide data week ps rest
      pure (d :: ds)

/-- The synthetic entry appended for each empty slot (source lines 355-364):
score exactly 2.00, no injury adjustment. -/
def emptySlotDetail : Detail :=
  { player := "Empty Slot"
    regular := none
    projection := none
    last14 := none
    last30 := none
    score := 2
    injury_adjustment := 0 }

/-- Roster-size equalization (source lines 349-383): the shorter details list
is extended with one `emptySlotDetail` per missing player. -/
def padDetails (d1 d2 : List Detail) : List Detail × List Detail :=
  if d1.length < d2.length then
    (d1 ++ List.replicate (d2.length - d1.length) emptySlotDetail, d2)
  else if d2.length < d1.length then
    (d1, d2 ++ List.replicate (d1.length - d2.length) emptySlotDetail)
  else (d1, d2)

/-- Total score of a details list: `sum(team_scores)` after padding. -/
def totalScore (details : List Detail) : ℚ :=
  (details.map (fun d => d.score)).sum

/-- `safe_sum_regular` (source line 395): 2.0 for an empty slot, otherwise
`max(regular + injury_adjustment, 2.0)` when `regular` is numeric, skipping
the entry when it is not. -/
def safe_sum_regular (details : List Detail) : ℚ :=
  (details.map (fun d =>
    if d.player == "Empty Slot" then 2
    else match d.regular with
      | some v => max (v + (d.injury_adjustment : ℚ)) 2
      | none => 0)).sum

/-- `safe_sum_last14` (source line 409): 2.0 for an empty slot, otherwise
`max(last14 + injury_adjustment, 2.0)` when `Last14` is present, skipping
the `N/A` entries. -/
def safe_sum_last14 (details : List Detail) : ℚ :=
  (details.map (fun d =>
    if d.player == "Empty Slot" then 2
    else match d.last14 with
      | some v => max (v + (d.injury_adjustment : ℚ)) 2
      | none => 0)).sum

/-- `safe_sum_last30` (source line 425): same as `safe_sum_last14` for the
`Last30` column. -/
def safe_sum_last30 (details : List Detail) : ℚ :=
  (details.map (fun d =>
    if d.player == "Empty Slot" then 2
    else match d.last30 with
      | some v => max (v + (d.injury_adjustment : ℚ)) 2
      | none => 0)).sum

/-- The `Player_Name → Player_Name_Normalized` dictionary (source line 596);
a Python dict built from the table keeps the last occurrence of a duplicated
key, hence the search on the reversed list. -/
def normalizedOf (data : List ScoreRow) (name : String) : Option String :=
  (data.reverse.find? (fun r => r.player_name == name)).map (fun r => r.normalized)

/-- A team's current roster in normalized names (source lines 599-603). -/
def teamRoster (data : List ScoreRow) (team : String) : List String :=
  ((data.filter (fun r => r.team == team)).map (fun r => r.player_name)).filterMap
    (fun p => normalizedOf data p)

/-- Normalization of the selected players (source lines 606-607). -/
def normalizeSel (data : List ScoreRow) (players : List String) : List String :=
  players.filterMap (fun p => normalizedOf data p)

/-- Before/after category averages for both teams over one statistics
table. -/
structure AvgBlock where
  team1_before : TeamAverages
  team1_after : TeamAverages
  team2_before : TeamAverages
  team2_after : TeamAverages
  deriving DecidableEq, Repr

/-- The four `calculate_team_averages` calls for one statistics table
(source lines 614-618 and analogues). -/
def avgBlock (df : List StatRow) (r1b r1a r2b r2a : List String)
    (n : ℕ) : AvgBlock :=
  { team1_before := calculate_team_averages df r1b n
    team1_after := calculate_team_averages df r1a n
    team2_before := calculate_team_averages df r2b n
    team2_after := calculate_team_averages df r2a n }

/-- Everything `evaluate_trade` computes and renders: details, totals, the
four ratios, the verdict, and the before/after average tables for the four
statistics tables. -/
structure TradeResult where
  week : ℕ
  team1_details : List Detail
  team2_details : List Detail
  team1_total : ℚ
  team2_total : ℚ
  team1_regular_total : ℚ
  team2_regular_total : ℚ
  team1_last14_total : ℚ
  team2_last14_total : ℚ
  team1_last30_total : ℚ
  team2_last30_total : ℚ
  trade_ratio : ℚ
  regular_trade_ratio : ℚ
  last14_trade_ratio : ℚ
  last30_trade_ratio : ℚ
  approved : Bool
  avgs_regular : AvgBlock
  avgs_projection : AvgBlock
  avgs_last14 : AvgBlock
  avgs_last30 : AvgBlock
  deriving DecidableEq, Repr

/-- Outcome of a call into the evaluation flow: a Python exception, an
`st.warning` / `st.error` message followed by an early return, or a completed
result. -/
inductive EvalResult where
  | exception (msg : String)
  | warning (msg : String)
  | ok (r : TradeResult)
  deriving DecidableEq, Repr

/-- The body of `evaluate_trade` (source line 283) once the week has been
computed: evaluate both sides, pad the shorter one with empty slots, abort
with a warning when a total is zero, otherwise assemble the full result. -/
def evaluateTradeAtWeek (data : List ScoreRow)
    (team1_players team2_players : List String)
    (team1_injury_adjustments team2_injury_adjustments : List ℤ)
    (team1_name team2_name : String)
    (df_regular_season df_rest_of_season df_last14 df_last30 : List StatRow)
    (num_top_players : ℕ) (week : ℕ) : EvalResult :=
  match evalSide data week team1_players team1_injury_adjustments,
        evalSide data week team2_players team2_injury_adjustments with
  | some s1, some s2 =>
      let pd := padDetails s1 s2
      let team1_details := pd.1
      let team2_details := pd.2
      let team1_total := totalScore team1_details
      let team2_total := totalScore team2_details
      if team1_total = 0 ∨ team2_total = 0 then
        .warning "Both teams must have at least one player."
      else
        let trade_ratio :=
          round2 (min (team1_total / team2_total) (team2_total / team1_total))
        let team1_regular_total := safe_sum_regular team1_details
        let team2_regular_total := safe_sum_regular team2_details
        let team1_last14_total := safe_sum_last14 team1_details
        let team2_last14_total := safe_sum_last14 team2_details
        let team1_last30_total := safe_sum_last30 team1_details
        let team2_last30_total := safe_sum_last30 team2_details
        let r1b := teamRoster data team1_name
        let r2b := teamRoster data team2_name
        let sel1 := normalizeSel data team1_players
        let sel2 := normalizeSel data team2_players
        let r1a := (r1b.filter (fun p => !(sel1.contains p))) ++ sel2
        let r2a := (r2b.filter (fun p => !(sel2.contains p))) ++ sel1
        .ok { week := week
              team1_details := team1_details
              team2_details := team2_details
              team1_total := team1_total
              team2_total := team2_total
              team1_regular_total := team1_regular_total
              team2_regular_total := team2_regular_total
              team1_last14_total := team1_last14_total
              team2_last14_total := team2_last14_total
              team1_last30_total := team1_last30_total
              team2_last30_total := team2_last30_total
              trade_ratio := trade_ratio
              regular_trade_ratio := compute_ratio team1_regular_total team2_regular_total
              last14_trade_ratio := compute_ratio team1_last14_total team2_last14_total
              last30_trade_ratio := compute_ratio team1_last30_total team2_last30_total
              approved := decide ((4 / 5 : ℚ) ≤ trade_ratio)
              avgs_regular := avgBlock df_regular_season r1b r1a r2b r2a num_top_players
              avgs_projection := avgBlock df_rest_of_season r1b r1a r2b r2a num_top_players
              avgs_last14 := avgBlock df_last14 r1b r1a r2b r2a num_top_players
              avgs_last30 := avgBlock df_last30 r1b r1a r2b r2a num_top_players }
  | _, _ => .exception "player not found"

/-- `evaluate_trade` (source line 283): the first statement computes
`week = calculate_week()` from the wall clock (`days` since the base date);
everything else is a function of that week and the explicit arguments. -/
def evaluate_trade (data : List ScoreRow)
    (team1_players team2_players : List String)
    (team1_injury_adjustments team2_injury_adjustments : List ℤ)
    (team1_name team2_name : String)
    (df_regular_season df_rest_of_season df_last14 df_last30 : List StatRow)
    (num_top_players : ℕ) (days : ℤ) : EvalResult :=
  evaluateTradeAtWeek data team1_players team2_players
    team1_injury_adjustments team2_injury_adjustments team1_name team2_name
    df_regular_season df_rest_of_season df_last14 df_last30
    num_top_players (calculate_week days)

/-- `data['Takım'].unique()` minus `'Free Agent'` (source lines 1187-1188):
first occurrences, in order. -/
def uniqueTeams (data : List ScoreRow) : List String :=
  ((data.map (fun r => r.team)).foldl
    (fun acc t => if t ∈ acc then acc else acc ++ [t]) []).filter
    (fun t => t ≠ "Free Agent")

/-- The validation flow of the trade-evaluation tab (source lines 1187-1337):
too few teams, identical teams, a player selected on both sides, and an empty
selection on both sides each abort with a message; otherwise
`evaluate_trade` runs. -/
def mainEvaluate (data : List ScoreRow) (team1 team2 : String)
    (team1_selected team2_selected : List String)
    (team1_injury_adjustments team2_injury_adjustments : List ℤ)
    (df_regular_season df_rest_of_season df_last14 df_last30 : List StatRow)
    (num_top_players : ℕ) (days : ℤ) : EvalResult :=
  if (uniqueTeams data).length < 2 then
    .warning "Not enough teams available for trade evaluation."
  else if team1 = team2 then
    .warning "Please select two different teams for the trade."
  else if (team1_selected.filter (fun p => team2_selected.contains p)) ≠ [] then
    .warning "Error: duplicate player selected for both teams."
  else if team1_selected = [] ∧ team2_selected = [] then
    .warning "Please select players for both teams to evaluate a trade."
  else
    evaluate_trade data team1_selected team2_selected
      team1_injury_adjustments team2_injury_adjustments team1 team2
      df_regular_season df_rest_of_season df_last14 df_last30
      num_top_players days

/-- The pair of team totals of a completed evaluation. -/
def totalsOf : EvalResult → Option (ℚ × ℚ)
  | .ok r => some (r.team1_total, r.team2_total)
  | _ => none

/-- The overall trade ratio of a completed evaluation. -/
def ratioOf : EvalResult → Option ℚ
  | .ok r => some r.trade_ratio
  | _ => none

/-- The verdict of a completed evaluation. -/
def approvedOf : EvalResult → Option Bool
  | .ok r => some r.approved
  | _ => none

/-- Did the flow abort with a user-facing message (no exception, no
result)? -/
def isWarning : EvalResult → Bool
  | .warning _ => true
  | _ => false

/-! ## Helper lemmas -/

theorem evalSide_nil (data : List ScoreRow) (week : ℕ) (adjs : List ℤ) :
    evalSide data week [] adjs = some [] := rfl

theorem evalSide_cons (data : List ScoreRow) (week : ℕ) (p : String)
    (ps : List String) (a : ℤ) (rest : List ℤ) :
    evalSide data week (p :: ps) (a :: rest)
      = Option.bind (evalPlayer data week p a) (fun d =>
          Option.bind (evalSide data week ps rest) (fun ds => some (d :: ds))) := rfl

theorem evalPlayer_eq_some (data : List ScoreRow) (week : ℕ) (p : String)
    (a : ℤ) (d : Detail) :
    evalPlayer data week p a = some d ↔
      ∃ pd, lookupPlayer data p = some pd ∧
        d = { player := p
              regular := some pd.regular
              projection := some pd.projection
              last14 := pd.last14
              last30 := pd.last30
              score := max 2 (max 2 ((((20 : ℚ) - week) * pd.projection) / 20
                + ((week : ℚ) * pd.regular) / 20) + (a : ℚ))
              injury_adjustment := a } := by
  unfold evalPlayer calculate_score
  cases hl : lookupPlayer data p with
  | none => simp
  | some pd => simp [eq_comm]

theorem evalSide_length (data : List ScoreRow) (week : ℕ) :
    ∀ (ps : List String) (adjs : List ℤ) (ds : List Detail),
      evalSide data week ps adjs = some ds → ds.length = ps.length := by
  intro ps
  induction ps with
  | nil =>
      intro adjs ds h
      rw [evalSide_nil] at h
      simp only [Option.some.injEq] at h
      simp [← h]
  | cons p ps ih =>
      intro adjs ds h
      match adjs with
      | [] => simp [evalSide] at h
      | a :: rest =>
          rw [evalSide_cons] at h
          rcases Option.bind_eq_some.mp h with ⟨d, _, h2⟩
          rcases Option.bind_eq_some.mp h2 with ⟨ds2, hds2, heq⟩
          obtain rfl : d :: ds2 = ds := by simpa using heq
          simp [ih rest ds2 hds2]

theorem evalPlayer_score_ge (data : List ScoreRow) (week : ℕ) (p : String)
    (a : ℤ) (d : Detail) (h : evalPlayer data week p a = some d) :
    2 ≤ d.score := by
  rcases (evalPlayer_eq_some data week p a d).mp h with ⟨pd, _, rfl⟩
  exact le_max_left _ _

theorem evalSide_score_ge (data : List ScoreRow) (week : ℕ) :
    ∀ (ps : List String) (adjs : List ℤ) (ds : List Detail),
      evalSide data week ps adjs = some ds → ∀ d ∈ ds, 2 ≤ d.score := by
  intro ps
  induction ps with
  | nil =>
      intro adjs ds h
      rw [evalSide_nil] at h
      simp only [Option.some.injEq] at h
      simp [← h]
  | cons p ps ih =>
      intro adjs ds h
      match adjs with
      | [] => simp [evalSide] at h
      | a :: rest =>
          rw [evalSide_cons] at h
          rcases Option.bind_eq_some.mp h with ⟨d, hd, h2⟩
          rcases Option.bind_eq_some.mp h2 with ⟨ds2, hds2, heq⟩
          obtain rfl : d :: ds2 = ds := by simpa using heq
          intro x hx
          rcases List.mem_cons.mp hx with hx | hx
          · exact hx ▸ evalPlayer_score_ge data week p a d hd
          · exact ih rest ds2 hds2 x hx

theorem evalSide_exists (data : List ScoreRow) (week : ℕ) :
    ∀ (ps : List String) (adjs : List ℤ),
      (∀ p ∈ ps, (lookupPlayer data p).isSome) → ps.length ≤ adjs.length →
      ∃ ds, evalSide data week ps adjs = some ds := by
  intro ps
  induction ps with
  | nil => intro adjs _ _; exact ⟨[], rfl⟩
  | cons p ps ih =>
      intro adjs hmem hlen
      match adjs with
      | [] => simp at hlen
      | a :: rest =>
          have hp : (lookupPlayer data p).isSome :=
            hmem p (List.mem_cons_self p ps)
          rcases Option.isSome_iff_exists.mp hp with ⟨pd, hpd⟩
          have hd : evalPlayer data week p a =
              some { player := p
                     regular := some pd.regular
                     projection := some pd.projection
                     last14 := pd.last14
                     last30 := pd.last30
                     score := max 2 (max 2 ((((20 : ℚ) - week) * pd.projection) / 20
                        + ((week : ℚ) * pd.regular) / 20) + (a : ℚ))
                     injury_adjustment := a } :=
            (evalPlayer_eq_some data week p a _).mpr ⟨pd, hpd, rfl⟩
          rcases ih rest (fun q hq => hmem q (List.mem_cons_of_mem p hq))
              (by simpa using Nat.le_of_succ_le_succ hlen) with ⟨ds, hds⟩
          refine ⟨{ player := p
                    regular := some pd.regular
                    projection := some pd.projection
                    last14 := pd.last14
                    last30 := pd.last30
                    score := max 2 (max 2 ((((20 : ℚ) - week) * pd.projection) / 20
                       + ((week : ℚ) * pd.regular) / 20) + (a : ℚ))
                    injury_adjustment := a } :: ds, ?_⟩
          rw [evalSide_cons, hd]
          simp [hds]

theorem padDetails_length (d1 d2 : List Detail) :
    (padDetails d1 d2).1.length = max d1.length d2.length ∧
    (padDetails d1 d2).2.length = max d1.length d2.length := by
  unfold padDetails
  rcases lt_trichotomy d1.length d2.length with h | h | h
  · simp [h, Nat.max_eq_right (le_of_lt h), Nat.add_sub_cancel' (le_of_lt h)]
  · simp [h, lt_irrefl]
  · simp [Nat.lt_asymm h, h, Nat.max_eq_left (le_of_lt h),
      Nat.add_sub_cancel' (le_of_lt h)]

theorem padDetails_score_ge (d1 d2 : List Detail)
    (h1 : ∀ d ∈ d1, 2 ≤ d.score) (h2 : ∀ d ∈ d2, 2 ≤ d.score) :
    (∀ d ∈ (padDetails d1 d2).1, 2 ≤ d.score) ∧
    (∀ d ∈ (padDetails d1 d2).2, 2 ≤ d.score) := by
  unfold padDetails
  have hslot : ∀ k : ℕ, ∀ d ∈ List.replicate k emptySlotDetail, 2 ≤ d.score := by
    intro k d hd
    rw [List.eq_of_mem_replicate hd]
    simp [emptySlotDetail]
  split
  · refine ⟨fun d hd => ?_, h2⟩
    rcases List.mem_append.mp hd with hd | hd
    · exact h1 d hd
    · exact hslot _ d hd
  · split
    · refine ⟨h1, fun d hd => ?_⟩
      rcases List.mem_append.mp hd with hd | hd
      · exact h2 d hd
      · exact hslot _ d hd
    · exact ⟨h1, h2⟩

theorem totalScore_ge_of_ge (ds : List Detail) (h : ∀ d ∈ ds, 2 ≤ d.score) :
    2 * (ds.length : ℚ) ≤ totalScore ds := by
  induction ds with
  | nil => simp [totalScore]
  | cons d ds ih =>
      have hd : 2 ≤ d.score := h d (List.mem_cons_self d ds)
      have hrest := ih (fun x hx => h x (List.mem_cons_of_mem d hx))
      simp only [totalScore, List.map_cons, List.sum_cons, List.length_cons] at *
      push_cast
      linarith

/-- Shape of a completed `evaluateTradeAtWeek` run: once both sides evaluate,
the padding and the totals are known, and neither total is zero, the result
is `ok` with every field spelled out. -/
theorem evaluateTradeAtWeek_ok (data : List ScoreRow)
    (tp1 tp2 : List String) (adj1 adj2 : List ℤ) (n1 n2 : String)
    (dfr dfp df14 df30 : List StatRow) (ntop week : ℕ)
    (s1 s2 p1 p2 : List Detail) (t1 t2 : ℚ)
    (h1 : evalSide data week tp1 adj1 = some s1)
    (h2 : evalSide data week tp2 adj2 = some s2)
    (hp : padDetails s1 s2 = (p1, p2))
    (ht1 : totalScore p1 = t1) (ht2 : totalScore p2 = t2)
    (hz1 : t1 ≠ 0) (hz2 : t2 ≠ 0) :
    evaluateTradeAtWeek data tp1 tp2 adj1 adj2 n1 n2 dfr dfp df14 df30 ntop week
      = .ok { week := week
              team1_details := p1
              team2_details := p2
              team1_total := t1
              team2_total := t2
              team1_regular_total := safe_sum_regular p1
              team2_regular_total := safe_sum_regular p2
              team1_last14_total := safe_sum_last14 p1
              team2_last14_total := safe_sum_last14 p2
              team1_last30_total := safe_sum_last30 p1
              team2_last30_total := safe_sum_last30 p2
              trade_ratio := round2 (min (t1 / t2) (t2 / t1))
              regular_trade_ratio :=
                compute_ratio (safe_sum_regular p1) (safe_sum_regular p2)
              last14_trade_ratio :=
                compute_ratio (safe_sum_last14 p1) (safe_sum_last14 p2)
              last30_trade_ratio :=
                compute_ratio (safe_sum_last30 p1) (safe_sum_last30 p2)
              approved := decide ((4 / 5 : ℚ) ≤ round2 (min (t1 / t2) (t2 / t1)))
              avgs_regular := avgBlock dfr (teamRoster data n1)
                ((teamRoster data n1).filter
                  (fun p => !((normalizeSel data tp1).contains p)) ++ normalizeSel data tp2)
                (teamRoster data n2)
                ((teamRoster data n2).filter
                  (fun p => !((normalizeSel data tp2).contains p)) ++ normalizeSel data tp1)
                ntop
              avgs_projection := avgBlock dfp (teamRoster data n1)
                ((teamRoster data n1).filter
                  (fun p => !((normalizeSel data tp1).contains p)) ++ normalizeSel data tp2)
                (teamRoster data n2)
                ((teamRoster data n2).filter
                  (fun p => !((normalizeSel data tp2).contains p)) ++ normalizeSel data tp1)
                ntop
              avgs_last14 := avgBlock df14 (teamRoster data n1)
                ((teamRoster data n1).filter
                  (fun p => !((normalizeSel data tp1).contains p)) ++ normalizeSel data tp2)
                (teamRoster data n2)
                ((teamRoster data n2).filter
                  (fun p => !((normalizeSel data tp2).contains p)) ++ normalizeSel data tp1)
                ntop
              avgs_last30 := avgBlock df30 (teamRoster data n1)
                ((teamRoster data n1).filter
                  (fun p => !((normalizeSel data tp1).contains p)) ++ normalizeSel data tp2)
                (teamRoster data n2)
                ((teamRoster data n2).filter
                  (fun p => !((normalizeSel data tp2).contains p)) ++ normalizeSel data tp1)
                ntop } := by
  unfold evaluateTradeAtWeek
  rw [h1, h2]
  simp only [hp, ht1, ht2]
  rw [if_neg (by push_neg; exact ⟨hz1, hz2⟩)]

/-- Shape of an aborted `evaluateTradeAtWeek` run: a zero total yields the
warning message. -/
theorem evaluateTradeAtWeek_zero (data : List ScoreRow)
    (tp1 tp2 : List String) (adj1 adj2 : List ℤ) (n1 n2 : String)
    (dfr dfp df14 df30 : List StatRow) (ntop week : ℕ)
    (s1 s2 : List Detail)
    (h1 : evalSide data week tp1 adj1 = some s1)
    (h2 : evalSide data week tp2 adj2 = some s2)
    (hz : totalScore (padDetails s1 s2).1 = 0 ∨ totalScore (padDetails s1 s2).2 = 0) :
    evaluateTradeAtWeek data tp1 tp2 adj1 adj2 n1 n2 dfr dfp df14 df30 ntop week
      = .warning "Both teams must have at least one player." := by
  unfold evaluateTradeAtWeek
  rw [h1, h2]
  simp only []
  rw [if_pos hz]

/-! ## Concrete data used by the end-to-end scenario of the specification -/

/-- Player X of the end-to-end scenario: regular 10, projection 8. -/
def rowX : ScoreRow :=
  { player_name := "X"
    normalized := "x"
    team := "A"
    regular := 10
    projection := 8
    last14 := none
    last30 := none }

/-- Player Y of the end-to-end scenario: regular 6, projection 6. -/
def rowY : ScoreRow :=
  { player_name := "Y"
    normalized := "y"
    team := "B"
    regular := 6
    projection := 6
    last14 := none
    last30 := none }

/-- The two-player scores table of the end-to-end scenario. -/
def demoData : List ScoreRow := [rowX, rowY]

/-- The details entry `evaluate_trade` builds for player X at week 10 with no
injury: score 9.0. -/
def dX : Detail :=
  { player := "X"
    regular := some 10
    projection := some 8
    last14 := none
    last30 := none
    score := 9
    injury_adjustment := 0 }

/-- The details entry `evaluate_trade` builds for player Y at week 10 with a
short-term injury (-1): score max(2, 6 - 1) = 5.0. -/
def dY : Detail :=
  { player := "Y"
    regular := some 6
    projection := some 6
    last14 := none
    last30 := none
    score := 5
    injury_adjustment := -1 }

theorem lookupX : lookupPlayer demoData "X" = some rowX := by
  simp [lookupPlayer, demoData, List.find?, rowX]

theorem lookupY : lookupPlayer demoData "Y" = some rowY := by
  simp [lookupPlayer, demoData, List.find?, rowX, rowY]

theorem evalSideX : evalSide demoData 10 ["X"] [0] = some [dX] := by
  rw [show (["X"] : List String) = ["X"] from rfl, evalSide_cons]
  have hX : evalPlayer demoData 10 "X" 0 = some dX := by
    rw [evalPlayer, calculate_score, lookupX]
    simp only [Option.map_some']
    norm_num [dX, rowX, max_def]
  rw [hX, evalSide_nil]
  rfl

theorem evalSideY : evalSide demoData 10 ["Y"] [-1] = some [dY] := by
  rw [evalSide_cons]
  have hY : evalPlayer demoData 10 "Y" (-1) = some dY := by
    rw [evalPlayer, calculate_score, lookupY]
    simp only [Option.map_some']
    norm_num [dY, rowY, max_def]
  rw [hY, evalSide_nil]
  rfl

/-! ## Claims -/

/-- C1: for every player present in the data table (with row `pd` the first
match, carrying the numeric `Regular` and `Projection` values) and every week
`w ≥ 0`, `calculate_score` returns exactly
`max(2, ((20 - w) * projection + w * regular) / 20)`; in particular, for
regular = 10, projection = 8, w = 10 it returns 9.0. -/
theorem C1_calculate_score_blend (data : List ScoreRow) (player : String)
    (w : ℕ) (pd : ScoreRow) (h : lookupPlayer data player = some pd) :
    calculate_score player w data
      = some (max 2 ((((20 : ℚ) - w) * pd.projection + (w : ℚ) * pd.regular) / 20))
    ∧ calculate_score "X" 10 demoData = some 9 := by
  constructor
  · rw [calculate_score, h]
    simp only [Option.map_some', Option.some.injEq]
    rw [div_add_div_same]
  · rw [calculate_score, lookupX]
    simp only [Option.map_some', Option.some.injEq]
    norm_num [rowX, max_def]

theorem C1_calculate_score_blend_witness :
    lookupPlayer demoData "X" = some rowX ∧
    (calculate_score "X" 10 demoData
        = some (max 2 ((((20 : ℚ) - 10) * rowX.projection + (10 : ℚ) * rowX.regular) / 20))
      ∧ calculate_score "X" 10 demoData = some 9) :=
  ⟨lookupX, C1_calculate_score_blend demoData "X" 10 rowX lookupX⟩

/-- C6: for every player, every week w in [0, 20] and every injury
adjustment in \x7b0, -1, -2\x7d, the blended score `s` returned by
`calculate_score` is ≥ 2.0, and the adjusted score recorded in the details
entry equals `max(2.0, s + adjustment)` — the floor is re-applied after the
adjustment — hence is ≥ 2.0. -/
theorem C6_floor_invariant (data : List ScoreRow) (player : String) (w : ℕ)
    (adj : ℤ) (s : ℚ) (d : Detail)
    (hw : w ≤ 20) (hadj : adj = 0 ∨ adj = -1 ∨ adj = -2)
    (hs : calculate_score player w data = some s)
    (hd : evalPlayer data w player adj = some d) :
    2 ≤ s ∧ d.score = max 2 (s + (adj : ℚ)) ∧ 2 ≤ d.score := by
  rcases (evalPlayer_eq_some data w player adj d).mp hd with ⟨pd, hpd, rfl⟩
  rw [calculate_score, hpd] at hs
  simp only [Option.map_some', Option.some.injEq] at hs
  refine ⟨?_, ?_, le_max_left _ _⟩
  · rw [← hs]; exact le_max_left _ _
  · simp [← hs]

theorem C6_floor_invariant_witness :
    (10 : ℕ) ≤ 20 ∧ ((0 : ℤ) = 0 ∨ (0 : ℤ) = -1 ∨ (0 : ℤ) = -2) ∧
    calculate_score "X" 10 demoData = some 9 ∧
    evalPlayer demoData 10 "X" 0 = some dX ∧
    (2 ≤ (9 : ℚ) ∧ dX.score = max 2 ((9 : ℚ) + ((0 : ℤ) : ℚ)) ∧ 2 ≤ dX.score) := by
  have h9 : calculate_score "X" 10 demoData = some 9 := by
    rw [calculate_score, lookupX]
    simp only [Option.map_some', Option.some.injEq]
    norm_num [rowX, max_def]
  have hdX : evalPlayer demoData 10 "X" 0 = some dX := by
    rw [evalPlayer, calculate_score, lookupX]
    simp only [Option.map_some']
    norm_num [dX, rowX, max_def]
  exact ⟨by norm_num, Or.inl rfl, h9, hdX,
    C6_floor_invariant demoData "X" 10 0 9 dX (by norm_num) (Or.inl rfl) h9 hdX⟩

theorem totalScore_append_replicate (l : List Detail) (k : ℕ) :
    totalScore (l ++ List.replicate k emptySlotDetail)
      = totalScore l + 2 * (k : ℚ) := by
  simp [totalScore, List.map_append, List.sum_append, List.map_replicate,
    emptySlotDetail, List.sum_replicate, nsmul_eq_mul, mul_comm]

/-- C7: when one side offers fewer players, exactly (longer − shorter) empty
slots valued 2.00 each are appended to the shorter side, equalizing the
lengths and increasing the shorter side's total by 2.00 per slot; 3 players
against 2 yields exactly one slot. -/
theorem C7_empty_slot_padding (d1 d2 : List Detail) :
    (d1.length < d2.length →
      (padDetails d1 d2).1
          = d1 ++ List.replicate (d2.length - d1.length) emptySlotDetail
        ∧ (padDetails d1 d2).2 = d2
        ∧ (padDetails d1 d2).1.length = d2.length
        ∧ totalScore (padDetails d1 d2).1
          = totalScore d1 + 2 * ((d2.length - d1.length : ℕ) : ℚ))
    ∧ (d2.length < d1.length →
      (padDetails d1 d2).2
          = d2 ++ List.replicate (d1.length - d2.length) emptySlotDetail
        ∧ (padDetails d1 d2).1 = d1
        ∧ (padDetails d1 d2).2.length = d1.length
        ∧ totalScore (padDetails d1 d2).2
          = totalScore d2 + 2 * ((d1.length - d2.length : ℕ) : ℚ))
    ∧ emptySlotDetail.score = 2
    ∧ (padDetails [dX, dX, dX] [dY, dY]).2 = [dY, dY, emptySlotDetail] := by
  refine ⟨?_, ?_, rfl, ?_⟩
  · intro h
    unfold padDetails
    rw [if_pos h]
    refine ⟨rfl, rfl, ?_, totalScore_append_replicate d1 _⟩
    simp [Nat.add_sub_cancel' (le_of_lt h)]
  · intro h
    unfold padDetails
    rw [if_neg (Nat.lt_asymm h), if_pos h]
    refine ⟨rfl, rfl, ?_, totalScore_append_replicate d2 _⟩
    simp [Nat.add_sub_cancel' (le_of_lt h)]
  · simp [padDetails, List.replicate]

theorem C7_empty_slot_padding_witness :
    ([dX] : List Detail).length < ([dY, dY] : List Detail).length ∧
    ((padDetails [dX] [dY, dY]).1
        = [dX] ++ List.replicate (([dY, dY] : List Detail).length
            - ([dX] : List Detail).length) emptySlotDetail
      ∧ (padDetails [dX] [dY, dY]).2 = [dY, dY]
      ∧ (padDetails [dX] [dY, dY]).1.length = ([dY, dY] : List Detail).length
      ∧ totalScore (padDetails [dX] [dY, dY]).1
        = totalScore [dX] + 2 * ((([dY, dY] : List Detail).length
            - ([dX] : List Detail).length : ℕ) : ℚ)) :=
  ⟨by simp, (C7_empty_slot_padding [dX] [dY, dY]).1 (by simp)⟩

/-- Stat row used in the aggregation example: rank 1, FG 5-of-10, FT 0-of-0. -/
def statP : StatRow :=
  { normalized := "p"
    rank := 1
    fga := some (5, 10)
    fta := some (0, 0)
    threePM := 1
    pts := 10
    treb := 4
    ast := 2
    stl := 1
    blk := 0
    tov := 2 }

/-- Stat row used in the aggregation example: rank 2, FG 1-of-10, FT 0-of-0. -/
def statQ : StatRow :=
  { normalized := "q"
    rank := 2
    fga := some (1, 10)
    fta := some (0, 0)
    threePM := 0
    pts := 4
    treb := 6
    ast := 1
    stl := 0
    blk := 1
    tov := 1 }

/-- The two-player statistics table of the aggregation example. -/
def demoStats : List StatRow := [statP, statQ]

theorem topPlayers_demo : topPlayers demoStats ["p", "q"] 2 = [statP, statQ] := by
  norm_num [topPlayers, rosterRows, demoStats, List.insertionSort,
    List.orderedInsert, rankLE, statP, statQ]

/-- C4: the team shooting percentages are computed as summed makes over
summed attempts across the selected top-N players (never as an average of
per-player percentages), with result 0 when the summed attempts are 0; for
players shooting 5-of-10 and 1-of-10, team FG% = 6/20 = 0.30, and their
0-of-0 free throws give FT% = 0 rather than an error. -/
theorem C4_shooting_aggregation :
    (∀ (df : List StatRow) (roster : List String) (n : ℕ),
      (calculate_team_averages df roster n).fg_pct
          = (if 0 < ((topPlayers df roster n).map (fun r => (parse_attempts r.fga).2)).sum
             then ((topPlayers df roster n).map (fun r => (parse_attempts r.fga).1)).sum
                    / ((topPlayers df roster n).map (fun r => (parse_attempts r.fga).2)).sum
             else 0)
        ∧ (calculate_team_averages df roster n).ft_pct
          = (if 0 < ((topPlayers df roster n).map (fun r => (parse_attempts r.fta).2)).sum
             then ((topPlayers df roster n).map (fun r => (parse_attempts r.fta).1)).sum
                    / ((topPlayers df roster n).map (fun r => (parse_attempts r.fta).2)).sum
             else 0))
    ∧ (calculate_team_averages demoStats ["p", "q"] 2).fg_pct = 3 / 10
    ∧ (calculate_team_averages demoStats ["p", "q"] 2).ft_pct = 0 := by
  refine ⟨fun df roster n => ⟨rfl, rfl⟩, ?_, ?_⟩
  · show (if _ then _ else _) = (3 : ℚ) / 10
    rw [topPlayers_demo]
    norm_num [statP, statQ, parse_attempts]
  · show (if _ then _ else _) = (0 : ℚ)
    rw [topPlayers_demo]
    norm_num [statP, statQ, parse_attempts]

/-- C5: for a table whose qualifying rows carry pairwise distinct ranks (the
data-model invariant of the source's ranking tables), the Category Averager
selects exactly `min n` qualifying rows, all drawn from the qualifying rows,
all of them (as a permutation) when fewer than `n` qualify, every selected
row out-ranking (strictly lower rank than) every unselected qualifying row;
and each counting category is the arithmetic mean over exactly the selected
rows, 0 when no row is selected. -/
theorem C5_top_n_selection (df : List StatRow) (roster : List String) (n : ℕ)
    (hdistinct : (rosterRows df roster).Pairwise (fun a b => a.rank ≠ b.rank)) :
    (topPlayers df roster n).length = min n (rosterRows df roster).length
    ∧ (∀ x ∈ topPlayers df roster n, x ∈ rosterRows df roster)
    ∧ ((rosterRows df roster).length ≤ n →
        (topPlayers df roster n).Perm (rosterRows df roster))
    ∧ (∀ x ∈ topPlayers df roster n, ∀ y ∈ rosterRows df roster,
        y ∉ topPlayers df roster n → x.rank < y.rank)
    ∧ (calculate_team_averages df roster n).threePM
        = meanOf (topPlayers df roster n) (fun r => r.threePM)
    ∧ (calculate_team_averages df roster n).pts
        = meanOf (topPlayers df roster n) (fun r => r.pts)
    ∧ (calculate_team_averages df roster n).treb
        = meanOf (topPlayers df roster n) (fun r => r.treb)
    ∧ (calculate_team_averages df roster n).ast
        = meanOf (topPlayers df roster n) (fun r => r.ast)
    ∧ (calculate_team_averages df roster n).stl
        = meanOf (topPlayers df roster n) (fun r => r.stl)
    ∧ (calculate_team_averages df roster n).blk
        = meanOf (topPlayers df roster n) (fun r => r.blk)
    ∧ (calculate_team_averages df roster n).tov
        = meanOf (topPlayers df roster n) (fun r => r.tov)
    ∧ (topPlayers df roster n = [] → (calculate_team_averages df roster n).pts = 0) := by
  have hperm : ((rosterRows df roster).insertionSort rankLE).Perm (rosterRows df roster) :=
    List.perm_insertionSort rankLE (rosterRows df roster)
  have hsorted : List.Sorted rankLE ((rosterRows df roster).insertionSort rankLE) :=
    List.sorted_insertionSort rankLE (rosterRows df roster)
  have hlen : ((rosterRows df roster).insertionSort rankLE).length
      = (rosterRows df roster).length := hperm.length_eq
  have htp : topPlayers df roster n
      = ((rosterRows df roster).insertionSort rankLE).take n := rfl
  refine ⟨?_, ?_, ?_, ?_, rfl, rfl, rfl, rfl, rfl, rfl, rfl, ?_⟩
  · rw [htp, List.length_take, hlen]
  · intro x hx
    rw [htp] at hx
    exact hperm.mem_iff.mp (List.take_subset n _ hx)
  · intro hle
    rw [htp, List.take_of_length_le (by rw [hlen]; exact hle)]
    exact hperm
  · intro x hx y hy hyn
    have hysrt : y ∈ (rosterRows df roster).insertionSort rankLE :=
      hperm.mem_iff.mpr hy
    have hydrop : y ∈ ((rosterRows df roster).insertionSort rankLE).drop n := by
      rcases List.mem_append.mp
          ((List.take_append_drop n ((rosterRows df roster).insertionSort rankLE)) ▸
            hysrt) with h | h
      · exact absurd h (htp ▸ hyn)
      · exact h
    have hp : List.Pairwise rankLE
        (((rosterRows df roster).insertionSort rankLE).take n
          ++ ((rosterRows df roster).insertionSort rankLE).drop n) := by
      rw [List.take_append_drop]
      exact hsorted
    have hle : rankLE x y := (List.pairwise_append.mp hp).2.2 x (htp ▸ hx) y hydrop
    have hxq : x ∈ rosterRows df roster :=
      hperm.mem_iff.mp (List.take_subset n _ (htp ▸ hx))
    have hxy : x ≠ y := fun he => hyn (he ▸ hx)
    have hne : x.rank ≠ y.rank :=
      List.Pairwise.forall (fun _ _ h => Ne.symm h) hdistinct hxq hy hxy
    exact lt_of_le_of_ne hle hne
  · intro he
    show meanOf (topPlayers df roster n) (fun r => r.pts) = 0
    rw [he]
    simp [meanOf]

theorem C5_top_n_selection_witness :
    (rosterRows demoStats ["p", "q"]).Pairwise (fun a b => a.rank ≠ b.rank) ∧
    ((topPlayers demoStats ["p", "q"] 1).length
        = min 1 (rosterRows demoStats ["p", "q"]).length
    ∧ (∀ x ∈ topPlayers demoStats ["p", "q"] 1, x ∈ rosterRows demoStats ["p", "q"])
    ∧ ((rosterRows demoStats ["p", "q"]).length ≤ 1 →
        (topPlayers demoStats ["p", "q"] 1).Perm (rosterRows demoStats ["p", "q"]))
    ∧ (∀ x ∈ topPlayers demoStats ["p", "q"] 1, ∀ y ∈ rosterRows demoStats ["p", "q"],
        y ∉ topPlayers demoStats ["p", "q"] 1 → x.rank < y.rank)
    ∧ (calculate_team_averages demoStats ["p", "q"] 1).threePM
        = meanOf (topPlayers demoStats ["p", "q"] 1) (fun r => r.threePM)
    ∧ (calculate_team_averages demoStats ["p", "q"] 1).pts
        = meanOf (topPlayers demoStats ["p", "q"] 1) (fun r => r.pts)
    ∧ (calculate_team_averages demoStats ["p", "q"] 1).treb
        = meanOf (topPlayers demoStats ["p", "q"] 1) (fun r => r.treb)
    ∧ (calculate_team_averages demoStats ["p", "q"] 1).ast
        = meanOf (topPlayers demoStats ["p", "q"] 1) (fun r => r.ast)
    ∧ (calculate_team_averages demoStats ["p", "q"] 1).stl
        = meanOf (topPlayers demoStats ["p", "q"] 1) (fun r => r.stl)
    ∧ (calculate_team_averages demoStats ["p", "q"] 1).blk
        = meanOf (topPlayers demoStats ["p", "q"] 1) (fun r => r.blk)
    ∧ (calculate_team_averages demoStats ["p", "q"] 1).tov
        = meanOf (topPlayers demoStats ["p", "q"] 1) (fun r => r.tov)
    ∧ (topPlayers demoStats ["p", "q"] 1 = [] →
        (calculate_team_averages demoStats ["p", "q"] 1).pts = 0)) :=
  ⟨by norm_num [rosterRows, demoStats, List.pairwise_cons, statP, statQ],
   C5_top_n_selection demoStats ["p", "q"] 1
     (by norm_num [rosterRows, demoStats, List.pairwise_cons, statP, statQ])⟩

/-- Shape of a failed `evaluateTradeAtWeek` run: a failed side evaluation
(missing player row) models the Python exception. -/
theorem evaluateTradeAtWeek_exception (data : List ScoreRow)
    (tp1 tp2 : List String) (adj1 adj2 : List ℤ) (n1 n2 : String)
    (dfr dfp df14 df30 : List StatRow) (ntop week : ℕ)
    (h : evalSide data week tp1 adj1 = none ∨ evalSide data week tp2 adj2 = none) :
    evaluateTradeAtWeek data tp1 tp2 adj1 adj2 n1 n2 dfr dfp df14 df30 ntop week
      = .exception "player not found" := by
  unfold evaluateTradeAtWeek
  rcases h with h | h
  · rw [h]
  · rw [h]
    cases evalSide data week tp1 adj1 <;> rfl

theorem padDetails_demo : padDetails [dX] [dY] = ([dX], [dY]) := by
  simp [padDetails]

theorem totalScore_dX : totalScore [dX] = 9 := by
  simp [totalScore, dX]

theorem totalScore_dY : totalScore [dY] = 5 := by
  simp [totalScore, dY]

theorem week_demo : calculate_week 63 = 10 := by decide

/-- C3: a completed trade evaluation is approved exactly when the (rounded)
overall trade ratio is at least 0.80; in the end-to-end scenario the ratio is
0.56 and the trade is not approved. -/
theorem C3_approval_threshold :
    (∀ (data : List ScoreRow) (tp1 tp2 : List String) (adj1 adj2 : List ℤ)
        (n1 n2 : String) (dfr dfp df14 df30 : List StatRow) (ntop : ℕ) (days : ℤ),
      approvedOf (evaluate_trade data tp1 tp2 adj1 adj2 n1 n2 dfr dfp df14 df30 ntop days)
        = (ratioOf (evaluate_trade data tp1 tp2 adj1 adj2 n1 n2 dfr dfp df14 df30
            ntop days)).map (fun t => decide ((4 / 5 : ℚ) ≤ t)))
    ∧ ratioOf (evaluate_trade demoData ["X"] ["Y"] [0] [-1] "A" "B" [] [] [] [] 15 63)
        = some (14 / 25)
    ∧ approvedOf (evaluate_trade demoData ["X"] ["Y"] [0] [-1] "A" "B" [] [] [] [] 15 63)
        = some false := by
  have hdemo := evaluateTradeAtWeek_ok demoData ["X"] ["Y"] [0] [-1] "A" "B"
    [] [] [] [] 15 10 [dX] [dY] [dX] [dY] 9 5 evalSideX evalSideY padDetails_demo
    totalScore_dX totalScore_dY (by norm_num) (by norm_num)
  have hration : round2 (min ((9 : ℚ) / 5) (5 / 9)) = 14 / 25 := by
    norm_num [round2, round_eq, min_def]
  refine ⟨?_, ?_, ?_⟩
  · intro data tp1 tp2 adj1 adj2 n1 n2 dfr dfp df14 df30 ntop days
    unfold evaluate_trade
    cases h1 : evalSide data (calculate_week days) tp1 adj1 with
    | none =>
        rw [evaluateTradeAtWeek_exception data tp1 tp2 adj1 adj2 n1 n2
          dfr dfp df14 df30 ntop (calculate_week days) (Or.inl h1)]
        rfl
    | some s1 =>
        cases h2 : evalSide data (calculate_week days) tp2 adj2 with
        | none =>
            rw [evaluateTradeAtWeek_exception data tp1 tp2 adj1 adj2 n1 n2
              dfr dfp df14 df30 ntop (calculate_week days) (Or.inr h2)]
            rfl
        | some s2 =>
            rcases Classical.em (totalScore (padDetails s1 s2).1 = 0
                ∨ totalScore (padDetails s1 s2).2 = 0) with hz | hz
            · rw [evaluateTradeAtWeek_zero data tp1 tp2 adj1 adj2 n1 n2
                dfr dfp df14 df30 ntop (calculate_week days) s1 s2 h1 h2 hz]
              rfl
            · push_neg at hz
              rw [evaluateTradeAtWeek_ok data tp1 tp2 adj1 adj2 n1 n2
                dfr dfp df14 df30 ntop (calculate_week days) s1 s2
                (padDetails s1 s2).1 (padDetails s1 s2).2
                (totalScore (padDetails s1 s2).1) (totalScore (padDetails s1 s2).2)
                h1 h2 rfl rfl rfl hz.1 hz.2]
              rfl
  · rw [evaluate_trade, week_demo, hdemo, ratioOf, hration]
  · rw [evaluate_trade, week_demo, hdemo, approvedOf, hration]
    simp only [Option.some.injEq, decide_eq_false_iff_not]
    norm_num

theorem round2_nonneg (x : ℚ) (hx : 0 ≤ x) : 0 ≤ round2 x := by
  unfold round2
  apply div_nonneg _ (by norm_num)
  have h : (0 : ℤ) ≤ round (100 * x) := by
    rw [round_eq]
    exact Int.floor_nonneg.mpr (by linarith)
  exact_mod_cast h

theorem round2_le_one (x : ℚ) (hx : x ≤ 1) : round2 x ≤ 1 := by
  unfold round2
  rw [div_le_one (by norm_num)]
  have h : round (100 * x) ≤ 100 := by
    rw [round_eq]
    calc ⌊100 * x + 1 / 2⌋ ≤ ⌊(100 : ℚ) + 1 / 2⌋ :=
          Int.floor_le_floor (by linarith)
      _ = 100 := by norm_num
  exact_mod_cast h

theorem min_ratio_le_one (a b : ℚ) (ha : 0 < a) (hb : 0 < b) :
    min (a / b) (b / a) ≤ 1 := by
  rcases le_total a b with h | h
  · exact le_trans (min_le_left _ _) ((div_le_one hb).mpr h)
  · exact le_trans (min_le_right _ _) ((div_le_one ha).mpr h)

/-- C2 counterexample: with positive totals 1 and 1000 the rounded ratio is
0.00, which is outside (0, 1]; and the unequal positive totals 1000 and 999
also round to ratio 1.0, so ratio 1.0 does not hold exactly when the totals
are equal. -/
theorem C2_ratio_counterexample :
    (0 : ℚ) < 1 ∧ (0 : ℚ) < 1000
    ∧ compute_ratio 1 1000 = 0
    ∧ ¬ (0 < compute_ratio 1 1000)
    ∧ compute_ratio 1000 999 = 1 ∧ (1000 : ℚ) ≠ 999 := by
  norm_num [compute_ratio, round2, round_eq, min_def]

/-- C2 as amended: for positive totals the ratio (the `compute_ratio` used
for all three auxiliary ratios) equals min(A/B, B/A) rounded to 2 decimals,
is symmetric, lies in [0, 1] (rounding can reach 0.0 for extremely lopsided
totals), and equals 1.0 whenever the totals are exactly equal (rounding can
also produce 1.0 for unequal, nearly-equal totals); the overall trade ratio
of a completed evaluation is the same min-then-round formula applied to the
two team totals. -/
theorem C2_trade_ratio_properties :
    (∀ a b : ℚ, 0 < a → 0 < b →
      compute_ratio a b = round2 (min (a / b) (b / a))
      ∧ compute_ratio a b = compute_ratio b a
      ∧ 0 ≤ compute_ratio a b
      ∧ compute_ratio a b ≤ 1
      ∧ (a = b → compute_ratio a b = 1))
    ∧ (∀ (data : List ScoreRow) (tp1 tp2 : List String) (adj1 adj2 : List ℤ)
        (n1 n2 : String) (dfr dfp df14 df30 : List StatRow) (ntop : ℕ) (days : ℤ),
      ratioOf (evaluate_trade data tp1 tp2 adj1 adj2 n1 n2 dfr dfp df14 df30 ntop days)
        = (totalsOf (evaluate_trade data tp1 tp2 adj1 adj2 n1 n2 dfr dfp df14 df30
            ntop days)).map (fun p => round2 (min (p.1 / p.2) (p.2 / p.1)))) := by
  constructor
  · intro a b ha hb
    have hform : compute_ratio a b = round2 (min (a / b) (b / a)) := by
      unfold compute_ratio
      rw [if_pos ⟨ha, hb⟩]
    refine ⟨hform, ?_, ?_, ?_, ?_⟩
    · unfold compute_ratio
      rw [if_pos ⟨ha, hb⟩, if_pos ⟨hb, ha⟩, min_comm]
    · rw [hform]
      exact round2_nonneg _ (le_min (le_of_lt (div_pos ha hb))
        (le_of_lt (div_pos hb ha)))
    · rw [hform]
      exact round2_le_one _ (min_ratio_le_one a b ha hb)
    · intro hab
      subst hab
      rw [hform, div_self (ne_of_gt ha), min_self]
      norm_num [round2, round_eq]
  · intro data tp1 tp2 adj1 adj2 n1 n2 dfr dfp df14 df30 ntop days
    unfold evaluate_trade
    cases h1 : evalSide data (calculate_week days) tp1 adj1 with
    | none =>
        rw [evaluateTradeAtWeek_exception data tp1 tp2 adj1 adj2 n1 n2
          dfr dfp df14 df30 ntop (calculate_week days) (Or.inl h1)]
        rfl
    | some s1 =>
        cases h2 : evalSide data (calculate_week days) tp2 adj2 with
        | none =>
            rw [evaluateTradeAtWeek_exception data tp1 tp2 adj1 adj2 n1 n2
              dfr dfp df14 df30 ntop (calculate_week days) (Or.inr h2)]
            rfl
        | some s2 =>
            rcases Classical.em (totalScore (padDetails s1 s2).1 = 0
                ∨ totalScore (padDetails s1 s2).2 = 0) with hz | hz
            · rw [evaluateTradeAtWeek_zero data tp1 tp2 adj1 adj2 n1 n2
                dfr dfp df14 df30 ntop (calculate_week days) s1 s2 h1 h2 hz]
              rfl
            · push_neg at hz
              rw [evaluateTradeAtWeek_ok data tp1 tp2 adj1 adj2 n1 n2
                dfr dfp df14 df30 ntop (calculate_week days) s1 s2
                (padDetails s1 s2).1 (padDetails s1 s2).2
                (totalScore (padDetails s1 s2).1) (totalScore (padDetails s1 s2).2)
                h1 h2 rfl rfl rfl hz.1 hz.2]
              rfl

theorem C2_trade_ratio_properties_witness :
    (0 : ℚ) < 9 ∧ (0 : ℚ) < 5 ∧
    (compute_ratio 9 5 = round2 (min ((9 : ℚ) / 5) (5 / 9))
      ∧ compute_ratio 9 5 = compute_ratio 5 9
      ∧ 0 ≤ compute_ratio 9 5
      ∧ compute_ratio 9 5 ≤ 1
      ∧ ((9 : ℚ) = 5 → compute_ratio 9 5 = 1)) :=
  ⟨by norm_num, by norm_num,
   C2_trade_ratio_properties.1 9 5 (by norm_num) (by norm_num)⟩

/-- The details entry built for player X at week 1 (one day after the base
date): score (19·8 + 1·10)/20 = 8.1. -/
def dXweek1 : Detail :=
  { player := "X"
    regular := some 10
    projection := some 8
    last14 := none
    last30 := none
    score := 81 / 10
    injury_adjustment := 0 }

/-- The details entry built for player X at week 11 (70 days after the base
date): score (9·8 + 11·10)/20 = 9.1. -/
def dXweek11 : Detail :=
  { player := "X"
    regular := some 10
    projection := some 8
    last14 := none
    last30 := none
    score := 91 / 10
    injury_adjustment := 0 }

theorem evalSideX_week1 : evalSide demoData 1 ["X"] [0] = some [dXweek1] := by
  rw [evalSide_cons]
  have hX : evalPlayer demoData 1 "X" 0 = some dXweek1 := by
    rw [evalPlayer, calculate_score, lookupX]
    simp only [Option.map_some']
    norm_num [dXweek1, rowX, max_def]
  rw [hX, evalSide_nil]
  rfl

theorem evalSideX_week11 : evalSide demoData 11 ["X"] [0] = some [dXweek11] := by
  rw [evalSide_cons]
  have hX : evalPlayer demoData 11 "X" 0 = some dXweek11 := by
    rw [evalPlayer, calculate_score, lookupX]
    simp only [Option.map_some']
    norm_num [dXweek11, rowX, max_def]
  rw [hX, evalSide_nil]
  rfl

/-- C8 counterexample: `evaluate_trade` reads the wall clock through
`calculate_week()`, which is not an explicit argument; with identical
explicit arguments, a call made 0 days after the base date (week 1) returns
team-1 total 8.1 while a call made 70 days after it (week 11) returns 9.1,
so the produced results differ. -/
theorem C8_clock_dependence_counterexample :
    totalsOf (evaluate_trade demoData ["X"] [] [0] [] "A" "B" [] [] [] [] 15 0)
      = some (81 / 10, 2)
    ∧ totalsOf (evaluate_trade demoData ["X"] [] [0] [] "A" "B" [] [] [] [] 15 70)
      = some (91 / 10, 2)
    ∧ evaluate_trade demoData ["X"] [] [0] [] "A" "B" [] [] [] [] 15 0
      ≠ evaluate_trade demoData ["X"] [] [0] [] "A" "B" [] [] [] [] 15 70 := by
  have hpad : padDetails [dXweek1] [] = ([dXweek1], [emptySlotDetail]) := by
    simp [padDetails, List.replicate]
  have hpad11 : padDetails [dXweek11] [] = ([dXweek11], [emptySlotDetail]) := by
    simp [padDetails, List.replicate]
  have h0 : totalsOf (evaluate_trade demoData ["X"] [] [0] [] "A" "B" [] [] [] [] 15 0)
      = some (81 / 10, 2) := by
    rw [evaluate_trade, show calculate_week 0 = 1 from by decide,
      evaluateTradeAtWeek_ok demoData ["X"] [] [0] [] "A" "B" [] [] [] [] 15 1
        [dXweek1] [] [dXweek1] [emptySlotDetail] (81 / 10) 2
        evalSideX_week1 (evalSide_nil demoData 1 []) hpad
        (by simp [totalScore, dXweek1]) (by simp [totalScore, emptySlotDetail])
        (by norm_num) (by norm_num)]
    rfl
  have h70 : totalsOf (evaluate_trade demoData ["X"] [] [0] [] "A" "B" [] [] [] [] 15 70)
      = some (91 / 10, 2) := by
    rw [evaluate_trade, show calculate_week 70 = 11 from by decide,
      evaluateTradeAtWeek_ok demoData ["X"] [] [0] [] "A" "B" [] [] [] [] 15 11
        [dXweek11] [] [dXweek11] [emptySlotDetail] (91 / 10) 2
        evalSideX_week11 (evalSide_nil demoData 11 []) hpad11
        (by simp [totalScore, dXweek11]) (by simp [totalScore, emptySlotDetail])
        (by norm_num) (by norm_num)]
    rfl
  refine ⟨h0, h70, fun h => ?_⟩
  have hT := congrArg totalsOf h
  rw [h0, h70] at hT
  simp only [Option.some.injEq, Prod.mk.injEq] at hT
  exact absurd hT.1 (by norm_num)

/-- C8 amended: the only implicit input of `evaluate_trade` is the current
week derived from the wall clock; for a fixed week — in particular within any
two invocations whose clock readings fall in the same week — identical
explicit arguments (player lists, injury adjustments, team names, and the
four statistics tables) produce identical results. -/
theorem C8_week_determinism (data : List ScoreRow) (tp1 tp2 : List String)
    (adj1 adj2 : List ℤ) (n1 n2 : String) (dfr dfp df14 df30 : List StatRow)
    (ntop : ℕ) (d1 d2 : ℤ) (h : calculate_week d1 = calculate_week d2) :
    evaluate_trade data tp1 tp2 adj1 adj2 n1 n2 dfr dfp df14 df30 ntop d1
      = evaluate_trade data tp1 tp2 adj1 adj2 n1 n2 dfr dfp df14 df30 ntop d2 := by
  unfold evaluate_trade
  rw [h]

theorem C8_week_determinism_witness :
    calculate_week 0 = calculate_week 3 ∧
    evaluate_trade demoData ["X"] [] [0] [] "A" "B" [] [] [] [] 15 0
      = evaluate_trade demoData ["X"] [] [0] [] "A" "B" [] [] [] [] 15 3 :=
  ⟨by decide, C8_week_determinism demoData ["X"] [] [0] [] "A" "B" [] [] [] [] 15
    0 3 (by decide)⟩

theorem trade_totals_pos (data : List ScoreRow) (week : ℕ)
    (tp1 tp2 : List String) (adj1 adj2 : List ℤ) (s1 s2 : List Detail)
    (h1 : evalSide data week tp1 adj1 = some s1)
    (h2 : evalSide data week tp2 adj2 = some s2)
    (hne : tp1 ≠ [] ∨ tp2 ≠ []) :
    2 * ((max tp1.length tp2.length : ℕ) : ℚ) ≤ totalScore (padDetails s1 s2).1
    ∧ 2 * ((max tp1.length tp2.length : ℕ) : ℚ) ≤ totalScore (padDetails s1 s2).2
    ∧ 0 < totalScore (padDetails s1 s2).1
    ∧ 0 < totalScore (padDetails s1 s2).2 := by
  have hl1 : s1.length = tp1.length := evalSide_length data week tp1 adj1 s1 h1
  have hl2 : s2.length = tp2.length := evalSide_length data week tp2 adj2 s2 h2
  have hg := padDetails_score_ge s1 s2
    (evalSide_score_ge data week tp1 adj1 s1 h1)
    (evalSide_score_ge data week tp2 adj2 s2 h2)
  have hplen := padDetails_length s1 s2
  have hb1 : 2 * ((max tp1.length tp2.length : ℕ) : ℚ)
      ≤ totalScore (padDetails s1 s2).1 := by
    have hb := totalScore_ge_of_ge _ hg.1
    rw [hplen.1, hl1, hl2] at hb
    exact hb
  have hb2 : 2 * ((max tp1.length tp2.length : ℕ) : ℚ)
      ≤ totalScore (padDetails s1 s2).2 := by
    have hb := totalScore_ge_of_ge _ hg.2
    rw [hplen.2, hl1, hl2] at hb
    exact hb
  have hmax : 1 ≤ max tp1.length tp2.length := by
    rcases hne with hne | hne
    · exact le_trans (Nat.one_le_iff_ne_zero.mpr
        (by simpa using hne)) (le_max_left _ _)
    · exact le_trans (Nat.one_le_iff_ne_zero.mpr
        (by simpa using hne)) (le_max_right _ _)
  have hq : (2 : ℚ) ≤ 2 * ((max tp1.length tp2.length : ℕ) : ℚ) := by
    have h : (1 : ℚ) ≤ ((max tp1.length tp2.length : ℕ) : ℚ) := by
      exact_mod_cast hmax
    linarith
  exact ⟨hb1, hb2, lt_of_lt_of_le (by norm_num) (le_trans hq hb1),
    lt_of_lt_of_le (by norm_num) (le_trans hq hb2)⟩

/-- C10: when at least one of the two selected lists is non-empty (and every
selected player resolves to a data row, as in the surrounding flow), both
padded team totals are at least 2.0 times the longer list's length, hence
strictly positive, and `evaluate_trade` completes with a result — its
zero-total abort branch is unreachable under that precondition. -/
theorem C10_zero_total_unreachable (data : List ScoreRow)
    (tp1 tp2 : List String) (adj1 adj2 : List ℤ) (n1 n2 : String)
    (dfr dfp df14 df30 : List StatRow) (ntop : ℕ) (days : ℤ)
    (s1 s2 : List Detail)
    (h1 : evalSide data (calculate_week days) tp1 adj1 = some s1)
    (h2 : evalSide data (calculate_week days) tp2 adj2 = some s2)
    (hne : tp1 ≠ [] ∨ tp2 ≠ []) :
    2 * ((max tp1.length tp2.length : ℕ) : ℚ) ≤ totalScore (padDetails s1 s2).1
    ∧ 2 * ((max tp1.length tp2.length : ℕ) : ℚ) ≤ totalScore (padDetails s1 s2).2
    ∧ 0 < totalScore (padDetails s1 s2).1
    ∧ 0 < totalScore (padDetails s1 s2).2
    ∧ ∃ r, evaluate_trade data tp1 tp2 adj1 adj2 n1 n2 dfr dfp df14 df30 ntop days
        = .ok r := by
  have hp := trade_totals_pos data (calculate_week days) tp1 tp2 adj1 adj2
    s1 s2 h1 h2 hne
  refine ⟨hp.1, hp.2.1, hp.2.2.1, hp.2.2.2, ?_⟩
  rw [evaluate_trade]
  exact ⟨_, evaluateTradeAtWeek_ok data tp1 tp2 adj1 adj2 n1 n2 dfr dfp df14 df30
    ntop (calculate_week days) s1 s2 (padDetails s1 s2).1 (padDetails s1 s2).2
    (totalScore (padDetails s1 s2).1) (totalScore (padDetails s1 s2).2)
    h1 h2 rfl rfl rfl (ne_of_gt hp.2.2.1) (ne_of_gt hp.2.2.2)⟩

theorem C10_zero_total_unreachable_witness :
    2 * ((max (["X"] : List String).length (["Y"] : List String).length : ℕ) : ℚ)
        ≤ totalScore (padDetails [dX] [dY]).1
    ∧ 2 * ((max (["X"] : List String).length (["Y"] : List String).length : ℕ) : ℚ)
        ≤ totalScore (padDetails [dX] [dY]).2
    ∧ 0 < totalScore (padDetails [dX] [dY]).1
    ∧ 0 < totalScore (padDetails [dX] [dY]).2
    ∧ ∃ r, evaluate_trade demoData ["X"] ["Y"] [0] [-1] "A" "B" [] [] [] [] 15 63
        = .ok r :=
  C10_zero_total_unreachable demoData ["X"] ["Y"] [0] [-1] "A" "B" [] [] [] [] 15 63
    [dX] [dY] (by rw [week_demo]; exact evalSideX) (by rw [week_demo]; exact evalSideY)
    (Or.inl (by simp))

/-- C9: each validation condition — fewer than two fantasy teams, a player
selected on both sides, an empty selection on both sides, a zero team total —
aborts the flow with a user-facing warning message (never an exception),
producing no result; and when none of them holds (with selections resolving
to data rows and positionally aligned adjustment lists, as the surrounding
selection UI guarantees, and two distinct teams chosen) the evaluation
completes with a full result. -/
theorem C9_validation_flow (data : List ScoreRow) (team1 team2 : String)
    (sel1 sel2 : List String) (adj1 adj2 : List ℤ)
    (dfr dfp df14 df30 : List StatRow) (ntop : ℕ) (days : ℤ) :
    ((uniqueTeams data).length < 2 →
      mainEvaluate data team1 team2 sel1 sel2 adj1 adj2 dfr dfp df14 df30 ntop days
        = .warning "Not enough teams available for trade evaluation.")
    ∧ ((sel1.filter (fun p => sel2.contains p)) ≠ [] →
      isWarning (mainEvaluate data team1 team2 sel1 sel2 adj1 adj2 dfr dfp df14 df30
        ntop days) = true)
    ∧ (sel1 = [] ∧ sel2 = [] →
      isWarning (mainEvaluate data team1 team2 sel1 sel2 adj1 adj2 dfr dfp df14 df30
        ntop days) = true)
    ∧ (∀ s1 s2 : List Detail,
        evalSide data (calculate_week days) sel1 adj1 = some s1 →
        evalSide data (calculate_week days) sel2 adj2 = some s2 →
        totalScore (padDetails s1 s2).1 = 0 ∨ totalScore (padDetails s1 s2).2 = 0 →
        evaluate_trade data sel1 sel2 adj1 adj2 team1 team2 dfr dfp df14 df30 ntop days
          = .warning "Both teams must have at least one player.")
    ∧ (¬ (uniqueTeams data).length < 2 → team1 ≠ team2 →
        (sel1.filter (fun p => sel2.contains p)) = [] →
        ¬ (sel1 = [] ∧ sel2 = []) →
        (∀ p ∈ sel1 ++ sel2, (lookupPlayer data p).isSome) →
        sel1.length ≤ adj1.length → sel2.length ≤ adj2.length →
        ∃ r, mainEvaluate data team1 team2 sel1 sel2 adj1 adj2 dfr dfp df14 df30
          ntop days = .ok r) := by
  refine ⟨?_, ?_, ?_, ?_, ?_⟩
  · intro ht
    unfold mainEvaluate
    rw [if_pos ht]
  · intro hdup
    unfold mainEvaluate
    by_cases ht : (uniqueTeams data).length < 2
    · rw [if_pos ht]; rfl
    · rw [if_neg ht]
      by_cases he : team1 = team2
      · rw [if_pos he]; rfl
      · rw [if_neg he, if_pos hdup]; rfl
  · intro hemp
    unfold mainEvaluate
    by_cases ht : (uniqueTeams data).length < 2
    · rw [if_pos ht]; rfl
    · rw [if_neg ht]
      by_cases he : team1 = team2
      · rw [if_pos he]; rfl
      · rw [if_neg he]
        by_cases hd : (sel1.filter (fun p => sel2.contains p)) ≠ []
        · rw [if_pos hd]; rfl
        · rw [if_neg hd, if_pos hemp]; rfl
  · intro s1 s2 h1 h2 hz
    rw [evaluate_trade]
    exact evaluateTradeAtWeek_zero data sel1 sel2 adj1 adj2 team1 team2
      dfr dfp df14 df30 ntop (calculate_week days) s1 s2 h1 h2 hz
  · intro ht hne hdup hemp hfound hlen1 hlen2
    rcases evalSide_exists data (calculate_week days) sel1 adj1
        (fun p hp => hfound p (List.mem_append.mpr (Or.inl hp))) hlen1 with ⟨s1, h1⟩
    rcases evalSide_exists data (calculate_week days) sel2 adj2
        (fun p hp => hfound p (List.mem_append.mpr (Or.inr hp))) hlen2 with ⟨s2, h2⟩
    have hpos := trade_totals_pos data (calculate_week days) sel1 sel2 adj1 adj2
      s1 s2 h1 h2 (not_and_or.mp hemp)
    unfold mainEvaluate
    rw [if_neg ht, if_neg hne, if_neg (fun hc => hc hdup), if_neg hemp, evaluate_trade]
    exact ⟨_, evaluateTradeAtWeek_ok data sel1 sel2 adj1 adj2 team1 team2
      dfr dfp df14 df30 ntop (calculate_week days) s1 s2
      (padDetails s1 s2).1 (padDetails s1 s2).2
      (totalScore (padDetails s1 s2).1) (totalScore (padDetails s1 s2).2)
      h1 h2 rfl rfl rfl (ne_of_gt hpos.2.2.1) (ne_of_gt hpos.2.2.2)⟩

theorem C9_validation_flow_witness :
    ∃ r, mainEvaluate demoData "A" "B" ["X"] ["Y"] [0] [-1] [] [] [] [] 15 63
      = .ok r :=
  (C9_validation_flow demoData "A" "B" ["X"] ["Y"] [0] [-1] [] [] [] [] 15 63).2.2.2.2
    (by decide)
    (by simp)
    (by simp)
    (by simp)
    (by
      intro p hp
      simp only [List.mem_append, List.mem_cons, List.not_mem_nil, or_false] at hp
      rcases hp with rfl | rfl
      · rw [lookupX]; rfl
      · rw [lookupY]; rfl)
    (by simp)
    (by simp)

end TradeMachine
